import Mathlib

/-!
Shallow embedding of `ycrawler.py` (an asyncio news crawler) and proofs about it.

The embedding translates the script's pure decision logic directly:
machine-level I/O (HTTP, filesystem, BeautifulSoup parsing, `urllib` URL
resolution) is abstracted as explicit inputs or oracle functions, while every
branch, loop, slice and string manipulation performed by the script itself is
reproduced faithfully from the source.
-/

namespace Ycrawler

/-! ### Module-level constants (lines 29-39 of the source) -/

def START_PAGE : String := "https://news.ycombinator.com"

/-- `COMMENTS_PAGE_TEMPLATE = START_PAGE + '/item?id={news_id}'`, applied via
`.format(news_id=news_id)`. -/
def COMMENTS_PAGE_TEMPLATE (news_id : String) : String :=
  START_PAGE ++ "/item?id=" ++ news_id

def TOP_NEWS : Nat := 4

def OUTPUT_DIR : String := "news"

def MAX_FILE_NAME_LENGTH : Nat := 126

def REQUEST_CHUNKS : Nat := 256

/-- `REQUEST_TIMEOUT = 16.` — the float has an integral value, modelled as `Int`. -/
def REQUEST_TIMEOUT : Int := 16

def REQUEST_LIMIT_PER_HOST : Nat := 8

/-- `RESTART_INTERVAL = 60.` — the float has an integral value, modelled as `Int`. -/
def RESTART_INTERVAL : Int := 60

/-! ### Bounded fetcher (`session_fetch`, lines 94-99) -/

/-- The failure taxonomy of a fetch. -/
inductive FetchError
  | timeout
  | httpStatus (code : Nat)
  | connectionError
deriving DecidableEq, Repr

/-- One HTTP response as delivered by the aiohttp client boundary. -/
structure HttpResponse where
  status : Nat
  body : List Nat
  contentType : String
deriving DecidableEq, Repr

/-- Embeds `response.raise_for_status()`: aiohttp raises `ClientResponseError`
exactly when `400 <= self.status` (quoted in the source's own comment on
line 97). -/
def raise_for_status (status : Nat) : Except FetchError Unit :=
  if 400 ≤ status then .error (.httpStatus status) else .ok ()

/-- Embeds `session_fetch` (lines 94-99): raise for status, then return the
response body together with the declared `Content-Type` header.  No retry of
any kind is performed: the response is consumed exactly once. -/
def session_fetch (resp : HttpResponse) : Except FetchError (List Nat × String) :=
  match raise_for_status resp.status with
  | .error e => .error e
  | .ok _ => .ok (resp.body, resp.contentType)

/-- A status code is 2xx. (Vocabulary of the claim, not of the source.) -/
def is2xx (status : Nat) : Bool := 200 ≤ status && status < 300

/-! ### Listing selection (`async_main`, lines 177-189) -/

/-- One `tr.athing` row of the listing document: its stable `id` attribute and
the headline anchor's text and href. -/
structure Row where
  id : String
  title : String
  href : String
deriving DecidableEq, Repr

/-- Embeds the loop body of lines 179-189: for each row delivered by
`find_all('tr', 'athing', limit=top)` (already truncated to the top-N), launch
a pipeline unless the row id is in `news_processed`. -/
def listing_loop (visited : List String) : List Row → List Row
  | [] => []
  | r :: rs =>
    if visited.contains r.id then listing_loop visited rs
    else r :: listing_loop visited rs

/-- Embeds lines 179-189 as a whole: `find_all(..., limit=top)` yields the
first `top` matching rows in document order, over which the selection loop
runs. -/
def select_news (rows : List Row) (top : Nat) (visited : List String) : List Row :=
  listing_loop visited (rows.take top)

/-! ### Sanitizing persister (`save_content`, lines 112-125)

`urlparse(url)` is the stdlib boundary: it is modelled by taking the parsed
`netloc` and `path` components as the input.  Every string operation the
script applies to them is embedded below. -/

/-- The `netloc`/`path` components produced by `urlparse(url)`. -/
structure UrlParts where
  netloc : String
  path : String
deriving DecidableEq, Repr

/-- `netloc.replace('.', '_')` — single-character replacement is a map. -/
def replaceDot : List Char → List Char :=
  List.map (fun c => if c = '.' then '_' else c)

/-- `path.replace('/', '__')` — each `/` becomes two underscores. -/
def replaceSlash : List Char → List Char
  | [] => []
  | c :: cs => (if c = '/' then ['_', '_'] else [c]) ++ replaceSlash cs

/-- `path.rstrip('/')` — strip all trailing slashes. -/
def rstripSlash (cs : List Char) : List Char :=
  (cs.reverse.dropWhile (fun c => c = '/')).reverse

/-- The parenthesised sanitized portion of line 116-117:
`netloc.replace('.', '_') + path.rstrip('/').replace('/', '__')`. -/
def sanitize_url (u : UrlParts) : List Char :=
  replaceDot u.netloc.data ++ replaceSlash (rstripSlash u.path.data)

/-- Python slicing `s[i:]` for a possibly negative start index `i`:
a negative `i` keeps the last `-i` characters (all of `s` if shorter),
a non-negative `i` drops the first `i` characters. -/
def pySliceFrom (i : Int) (cs : List Char) : List Char :=
  if i < 0 then cs.drop (cs.length - (-i).toNat) else cs.drop i.toNat

/-- Lines 115-117: `file_name = prefix + '_' + (sanitized)[-MAX_FILE_NAME_LENGTH + len(prefix):]`.
This is the name before the extension mapping of line 119. -/
def file_name_base (pre : String) (u : UrlParts) : String :=
  pre ++ "_" ++ ⟨pySliceFrom (-(MAX_FILE_NAME_LENGTH : Int) + pre.length) (sanitize_url u)⟩

/-- `content_type.partition(';')[0]`: the part before the first `;`
(the whole string when there is none). -/
def partitionBefore (c : Char) : List Char → List Char
  | [] => []
  | x :: xs => if x = c then [] else x :: partitionBefore c xs

/-- Python `str.strip()`: remove leading and trailing whitespace. -/
def pyStrip (cs : List Char) : List Char :=
  ((cs.dropWhile Char.isWhitespace).reverse.dropWhile Char.isWhitespace).reverse

/-- Line 119's argument to `guess_extension`:
`content_type.partition(';')[0].strip()`. -/
def mime_of (contentType : String) : String :=
  ⟨pyStrip (partitionBefore ';' contentType.data)⟩

/-- Index of the last occurrence of `c` (Python `str.rfind`, as an `Option`). -/
def rfindIdx (c : Char) : List Char → Option Nat
  | [] => none
  | x :: xs =>
    match rfindIdx c xs with
    | some i => some (i + 1)
    | none => if x = c then some 0 else none

/-- `pathlib.PurePath.suffix` of a name without separators: the portion from
the last `.`, provided that dot is neither the first nor the last character;
otherwise the empty suffix. -/
def path_suffix (name : List Char) : List Char :=
  match rfindIdx '.' name with
  | some i => if 0 < i ∧ i + 1 < name.length then name.drop i else []
  | none => []

/-- The errors `save_content` can raise before any write happens. -/
inductive SaveError
  | typeError
deriving DecidableEq, Repr

/-- `Path.with_suffix(sfx)` on the final path component: replaces the existing
suffix (if any) by `sfx`.  When `guess_extension` found no entry for the MIME
type it returns `None`, and `with_suffix(None)` raises `TypeError` (modelled as
`SaveError.typeError`) — before the file is opened. -/
def with_suffix (name : List Char) (ext : Option String) : Except SaveError (List Char) :=
  match ext with
  | none => .error .typeError
  | some e => .ok (name.take (name.length - (path_suffix name).length) ++ e.data)

/-- The single write performed by `save_content` when it reaches line 122. -/
structure WriteOp where
  fileName : String
  content : List Nat
deriving DecidableEq, Repr

/-- Embeds `save_content` (lines 112-125): derive the base name (lines
115-118), map the declared MIME type through the `guess_extension` table (the
stdlib `mimetypes` boundary, passed in as `table`), substitute it as the
suffix, then write the full payload to the resulting file.  The directory part
is untouched by `with_suffix` and is omitted. -/
def save_content (table : String → Option String) (content : List Nat)
    (u : UrlParts) (contentType : String) (pre : String) :
    Except SaveError WriteOp :=
  match with_suffix (file_name_base pre u).data (table (mime_of contentType)) with
  | .error e => .error e
  | .ok name => .ok ⟨⟨name⟩, content⟩

/-! ### Session result folding (`async_main`, lines 190-198)

`asyncio.gather(*tasks, return_exceptions=True)` yields, per launched pipeline,
either the returned value (the news id, a Python `str`) or the captured
exception object.  A Python runtime value of one of those two shapes is
modelled by `PyVal`. -/

/-- A pipeline outcome as seen by `async_main`: a returned string, or a
captured exception (carrying the text `str(exc)` would produce). -/
inductive PyVal
  | str (s : String)
  | exn (s : String)
deriving DecidableEq, Repr

/-- Python `str(v)`: a string maps to itself, an exception to its text.
The result is always of type `str`. -/
def pyStr : PyVal → PyVal
  | .str s => .str s
  | .exn s => .str s

/-- The predicate `type(elm) == str` of line 197. -/
def isStr : PyVal → Bool
  | .str _ => true
  | .exn _ => false

/-- The underlying string of a `PyVal` (used when a value is inserted into the
`news_processed` set of strings). -/
def pyValString : PyVal → String
  | .str s => s
  | .exn s => s

/-- Embeds lines 192 and 197:
`results = list(map(str, results))` followed by
`news_session_processed = list(filter(lambda elm: type(elm) == str, results))`. -/
def news_session_processed (results : List PyVal) : List PyVal :=
  (results.map pyStr).filter isStr

/-- Embeds line 198: `news_processed.update(news_session_processed)` (order of
insertion kept to stay executable; only membership matters for a set). -/
def update_visited (visited : List String) (session : List PyVal) : List String :=
  visited ++ session.map pyValString

/-! ### One scheduler iteration (`async_main`, lines 169-205)

The body of the `while True:` loop, as a function of this iteration's
environment: the outcome of the index-page fetch (awaited on line 176 with no
surrounding `try`), the BeautifulSoup listing parse (black box `rows_of`), and
the per-story pipeline outcome (`run`, one `PyVal` per launched task as
delivered by `gather(..., return_exceptions=True)`).  The `.ok` value is the
`news_processed` set in force when the iteration reaches `asyncio.sleep`; an
`.error` is an exception propagating out of `async_main` (terminating the
process after top-level logging). -/

def session_iteration (fetchIndex : Except FetchError (List Nat × String))
    (rows_of : List Nat → String → List Row)
    (run : Row → PyVal)
    (visited : List String) (top : Nat) : Except FetchError (List String) :=
  match fetchIndex with
  | .error e => .error e
  | .ok (content, contentType) =>
    .ok (update_visited visited
          (news_session_processed ((select_news (rows_of content contentType) top visited).map run)))

/-! ### Configuration surface (`parse_input_args`, lines 55-73, and line 172) -/

/-- The parsed argparse namespace (lines 55-73).  The two float options have
integral defaults and are modelled as `Int`. -/
structure Args where
  loglevel : String
  logfile : Option String
  restart : Int
  top : Nat
  chunks : Nat
  timeout : Int
  limitperhost : Nat
  output : String
deriving DecidableEq, Repr

/-- What the user passed on the command line: `none` means the option was
omitted. -/
structure CliArgs where
  loglevel : Option String
  logfile : Option String
  restart : Option Int
  top : Option Nat
  chunks : Option Nat
  timeout : Option Int
  limitperhost : Option Nat
  output : Option String
deriving DecidableEq, Repr

/-- Embeds `parse_input_args` (lines 55-73): each option takes the supplied
value, falling back to its documented default. -/
def parse_input_args (cli : CliArgs) : Args :=
  { loglevel := cli.loglevel.getD "debug",
    logfile := cli.logfile,
    restart := cli.restart.getD RESTART_INTERVAL,
    top := cli.top.getD TOP_NEWS,
    chunks := cli.chunks.getD REQUEST_CHUNKS,
    timeout := cli.timeout.getD REQUEST_TIMEOUT,
    limitperhost := cli.limitperhost.getD REQUEST_LIMIT_PER_HOST,
    output := cli.output.getD OUTPUT_DIR }

/-- Embeds line 172: the per-host cap the connection pool actually enforces,
`aiohttp.TCPConnector(limit_per_host=REQUEST_LIMIT_PER_HOST)` — the module
constant, whatever `args` holds. -/
def tcp_connector_limit_per_host (_args : Args) : Nat :=
  REQUEST_LIMIT_PER_HOST

/-! ### Story pipeline (`process_news` / `process_comment`, lines 127-164)

The pipeline's awaited effects are supplied by an oracle environment:
`fetch` for `fetch_page` (the semaphore/timeout-wrapped `session_fetch`),
`persist` for `save_content`'s filesystem outcome, `extract` for the
BeautifulSoup query for `a[rel=nofollow]` hrefs on the discussion page, and
`resolve` for `urljoin(START_PAGE, ...)`.  The pipeline's own control flow —
sequencing, the dedup check, the fan-out, and `gather(return_exceptions=True)`
— is embedded directly.  Alongside its result the embedding records the
ordered trace of fetch calls it issues. -/

/-- An error escaping a pipeline step. -/
inductive PErr
  | fetchErr (e : FetchError)
  | saveErr (e : SaveError)
deriving DecidableEq, Repr

/-- Which call site of `fetch_page` issued a fetch. -/
inductive FetchKind
  | own
  | discussion
  | comment
deriving DecidableEq, Repr

/-- One issued fetch, tagged with its call site. -/
structure FetchEvent where
  kind : FetchKind
  url : String
deriving DecidableEq, Repr

/-- The oracle environment of one pipeline run. -/
structure PipelineEnv where
  fetch : String → Except PErr (List Nat × String)
  persist : List Nat → String → String → String → Except PErr String
  extract : List Nat → String → List String
  resolve : String → String

/-- Embeds the comment loop of lines 151-157: walk the extracted hrefs, skip a
resolved url if it is in `visited_comments_url`, and launch a task otherwise.
Exactly as in the source, nothing is ever added to `visited_comments_url`:
the set the loop starts with is the set it keeps. -/
def comment_tasks_loop (resolve : String → String) :
    List String → List String → List String
  | [], _ => []
  | h :: hs, visited =>
    if visited.contains (resolve h) then comment_tasks_loop resolve hs visited
    else resolve h :: comment_tasks_loop resolve hs visited

/-- Embeds `process_comment` (lines 127-129): fetch the comment url, then
persist it with the `'comm'` logical name. -/
def process_comment (env : PipelineEnv) (url : String) : Except PErr String :=
  match env.fetch url with
  | .error e => .error e
  | .ok (content, contentType) => env.persist content url contentType "comm"

/-- Embeds `process_news` (lines 131-164): fetch and save the story's own
page, fetch the discussion page, extract and dedup-check comment links, fan
out one `process_comment` per launched url gathering each outcome without
propagating it, and return the news id.  The first component is the ordered
trace of issued fetches; a comment fetch is recorded whether it succeeds or
not (the task runs either way). -/
def process_news (env : PipelineEnv) (newsId href : String) :
    List FetchEvent × Except PErr String :=
  match env.fetch (env.resolve href) with
  | .error e => ([⟨.own, env.resolve href⟩], .error e)
  | .ok (content, contentType) =>
    match env.persist content (env.resolve href) contentType "news" with
    | .error e => ([⟨.own, env.resolve href⟩], .error e)
    | .ok _ =>
      match env.fetch (COMMENTS_PAGE_TEMPLATE newsId) with
      | .error e =>
        ([⟨.own, env.resolve href⟩, ⟨.discussion, COMMENTS_PAGE_TEMPLATE newsId⟩], .error e)
      | .ok (ccontent, cct) =>
        (⟨.own, env.resolve href⟩ :: ⟨.discussion, COMMENTS_PAGE_TEMPLATE newsId⟩ ::
            (comment_tasks_loop env.resolve (env.extract ccontent cct) []).map
              (fun u => ⟨.comment, u⟩),
         .ok newsId)

end Ycrawler

namespace Ycrawler

/-! ### Theorems about the fetcher and listing selection -/

/-- Helper: the selection loop is a filter on non-membership of the id. -/
theorem listing_loop_eq_filter (visited : List String) (rows : List Row) :
    listing_loop visited rows = rows.filter (fun r => !(visited.contains r.id)) := by
  induction rows with
  | nil => rfl
  | cons r rs ih =>
    unfold listing_loop
    by_cases h : r.id ∈ visited <;> simp [List.filter_cons, h, ih]

/-- C7: with a listing of at least `top` rows, exactly the first `top` rows in
document order are considered, and the pipelines launched are exactly the
unseen ids among those rows, in document order. -/
theorem select_news_top_unseen (rows : List Row) (top : Nat) (visited : List String)
    (h : top ≤ rows.length) :
    (rows.take top).length = top ∧
    select_news rows top visited = (rows.take top).filter (fun r => !(visited.contains r.id)) := by
  constructor
  · rw [List.length_take]; omega
  · exact listing_loop_eq_filter visited (rows.take top)

/-- A concrete three-row listing used to witness C7. -/
def rowsW : List Row :=
  [⟨"101", "t1", "https://one.example/"⟩,
   ⟨"102", "t2", "https://two.example/"⟩,
   ⟨"103", "t3", "https://three.example/"⟩]

/-- C7 witness: three rows, top-2, with id "102" already visited. -/
theorem select_news_top_unseen_witness :
    2 ≤ rowsW.length ∧
    ((rowsW.take 2).length = 2 ∧
      select_news rowsW 2 ["102"] =
        (rowsW.take 2).filter (fun r => !((["102"] : List String).contains r.id))) :=
  ⟨by decide, select_news_top_unseen rowsW 2 ["102"] (by decide)⟩

/-- C6 counterexample: status 304 is not 2xx, yet `session_fetch` returns the
body and content type instead of failing — `raise_for_status` only fails for
status `≥ 400`. -/
theorem session_fetch_accepts_304 :
    is2xx 304 = false ∧
    session_fetch ⟨304, [], "text/html"⟩ = .ok ([], "text/html") := by
  exact ⟨rfl, rfl⟩

/-- C6 amended: the fetch fails (with `HTTPStatus(code)`, never retrying) for
exactly the statuses `≥ 400`, and returns the body and declared content type
for every status `< 400`. -/
theorem session_fetch_status_behavior (resp : HttpResponse) :
    session_fetch resp =
      if 400 ≤ resp.status then .error (.httpStatus resp.status)
      else .ok (resp.body, resp.contentType) := by
  unfold session_fetch raise_for_status
  by_cases h : 400 ≤ resp.status
  · simp [h]
  · simp [h]

/-! ### Theorems about the persister's file-name derivation (C4) -/

/-- String length distributes over append (by computation on the data lists). -/
theorem str_length_append (a b : String) : (a ++ b).length = a.length + b.length := by
  cases a with
  | mk la =>
    cases b with
    | mk lb => exact List.length_append la lb

/-- A URL whose sanitized form is long enough to trigger truncation:
`netloc = "example.com"`, `path = "/" + 120 * "a"`. -/
def longUrl : UrlParts :=
  ⟨"example.com", "/" ++ ⟨List.replicate 120 'a'⟩⟩

set_option maxRecDepth 8192 in
/-- C4 counterexample: for `prefix = "news"` and `longUrl`, the derived name
`prefix + "_" + truncated-sanitized` has length `MAX_FILE_NAME_LENGTH + 1 = 127`,
exceeding the fixed maximum `126`: the slice cap forgets the `"_"` separator. -/
theorem file_name_base_exceeds_max :
    (file_name_base "news" longUrl).length = MAX_FILE_NAME_LENGTH + 1 ∧
    MAX_FILE_NAME_LENGTH < (file_name_base "news" longUrl).length := by
  constructor
  · decide
  · decide

/-- C4 amended: for every url and prefix shorter than the maximum, the derived
name is the intact prefix and separator followed by a suffix of the sanitized
url (cut from its start, keeping the rightmost characters); its total length is
`len(prefix) + 1 + min (MAX - len(prefix)) len(sanitized)`, hence at most
`MAX_FILE_NAME_LENGTH + 1` — and exactly `MAX_FILE_NAME_LENGTH + 1` (not `MAX`)
whenever the sanitized portion is long enough to be truncated. -/
theorem file_name_base_length (u : UrlParts) (pre : String)
    (hp : pre.length < MAX_FILE_NAME_LENGTH) :
    (file_name_base pre u).length =
      pre.length + 1 + min (MAX_FILE_NAME_LENGTH - pre.length) (sanitize_url u).length ∧
    (file_name_base pre u).length ≤ MAX_FILE_NAME_LENGTH + 1 ∧
    (MAX_FILE_NAME_LENGTH - pre.length ≤ (sanitize_url u).length →
      (file_name_base pre u).length = MAX_FILE_NAME_LENGTH + 1) ∧
    (∃ dropped,
      dropped ++ pySliceFrom (-(MAX_FILE_NAME_LENGTH : Int) + pre.length) (sanitize_url u) =
        sanitize_url u) := by
  have hM : MAX_FILE_NAME_LENGTH = 126 := rfl
  have hneg : (-(MAX_FILE_NAME_LENGTH : Int) + pre.length) < 0 := by
    rw [hM] at hp ⊢; omega
  have htct : (-(-(MAX_FILE_NAME_LENGTH : Int) + pre.length)).toNat =
      MAX_FILE_NAME_LENGTH - pre.length := by
    rw [hM] at hp ⊢; omega
  have hslice : pySliceFrom (-(MAX_FILE_NAME_LENGTH : Int) + pre.length) (sanitize_url u) =
      (sanitize_url u).drop
        ((sanitize_url u).length - (MAX_FILE_NAME_LENGTH - pre.length)) := by
    unfold pySliceFrom
    rw [if_pos hneg, htct]
  have hlen : (file_name_base pre u).length =
      pre.length + 1 +
        ((sanitize_url u).length -
          ((sanitize_url u).length - (MAX_FILE_NAME_LENGTH - pre.length))) := by
    unfold file_name_base
    rw [hslice, str_length_append, str_length_append]
    have h1 : ("_" : String).length = 1 := rfl
    have h2 : (String.mk ((sanitize_url u).drop
          ((sanitize_url u).length - (MAX_FILE_NAME_LENGTH - pre.length)))).length =
        (sanitize_url u).length -
          ((sanitize_url u).length - (MAX_FILE_NAME_LENGTH - pre.length)) := by
      show ((sanitize_url u).drop _).length = _
      rw [List.length_drop]
    rw [h1, h2]
  refine ⟨?_, ?_, ?_, ?_⟩
  · rw [hlen]; rw [hM] at hp ⊢; omega
  · rw [hlen]; rw [hM] at hp ⊢; omega
  · intro hcut; rw [hlen]; rw [hM] at hp hcut ⊢; omega
  · exact ⟨(sanitize_url u).take ((sanitize_url u).length - (MAX_FILE_NAME_LENGTH - pre.length)),
      by rw [hslice]; exact List.take_append_drop _ _⟩

/-- C4 amended witness: the prefix `"news"` is shorter than the maximum, and
the amended length law holds at `longUrl`. -/
theorem file_name_base_length_witness :
    ("news" : String).length < MAX_FILE_NAME_LENGTH ∧
    ((file_name_base "news" longUrl).length =
      ("news" : String).length +
        1 + min (MAX_FILE_NAME_LENGTH - ("news" : String).length) (sanitize_url longUrl).length ∧
    (file_name_base "news" longUrl).length ≤ MAX_FILE_NAME_LENGTH + 1 ∧
    (MAX_FILE_NAME_LENGTH - ("news" : String).length ≤ (sanitize_url longUrl).length →
      (file_name_base "news" longUrl).length = MAX_FILE_NAME_LENGTH + 1) ∧
    (∃ dropped,
      dropped ++
          pySliceFrom (-(MAX_FILE_NAME_LENGTH : Int) + ("news" : String).length)
            (sanitize_url longUrl) =
        sanitize_url longUrl)) :=
  ⟨by decide, file_name_base_length longUrl "news" (by decide)⟩

/-! ### Theorems about the extension mapping (C10) -/

/-- Helper: `rfindIdx` misses a character that is not in the list. -/
theorem rfindIdx_eq_none (c : Char) (l : List Char) (h : c ∉ l) : rfindIdx c l = none := by
  induction l with
  | nil => rfl
  | cons x xs ih =>
    rw [List.mem_cons] at h
    push_neg at h
    unfold rfindIdx
    rw [ih h.2, if_neg (fun hx => h.1 hx.symm)]

/-- Helper: the last dot of `stem ++ '.' :: sfx` sits at index `stem.length`
when `sfx` is dot-free. -/
theorem rfindIdx_append_dot (stem sfx : List Char) (h : '.' ∉ sfx) :
    rfindIdx '.' (stem ++ '.' :: sfx) = some stem.length := by
  induction stem with
  | nil =>
    show rfindIdx '.' ('.' :: sfx) = some 0
    unfold rfindIdx
    rw [rfindIdx_eq_none '.' sfx h]
    simp
  | cons x xs ih =>
    show rfindIdx '.' (x :: (xs ++ '.' :: sfx)) = some (xs.length + 1)
    unfold rfindIdx
    rw [ih]

/-- Helper: for a dot-free, non-empty `sfx` and non-empty `stem`, the pathlib
suffix of `stem ++ '.' :: sfx` is `'.' :: sfx`. -/
theorem path_suffix_append (stem sfx : List Char)
    (hs : stem ≠ []) (hx : sfx ≠ []) (h : '.' ∉ sfx) :
    path_suffix (stem ++ '.' :: sfx) = '.' :: sfx := by
  unfold path_suffix
  rw [rfindIdx_append_dot stem sfx h]
  have h1 : 0 < stem.length := List.length_pos.mpr hs
  have h2 : stem.length + 1 < (stem ++ '.' :: sfx).length := by
    rw [List.length_append]
    have := List.length_pos.mpr hx
    simp only [List.length_cons]
    omega
  show (if 0 < stem.length ∧ stem.length + 1 < (stem ++ '.' :: sfx).length then
      (stem ++ '.' :: sfx).drop stem.length else []) = '.' :: sfx
  rw [if_pos ⟨h1, h2⟩]
  exact List.drop_left stem ('.' :: sfx)

/-- Helper: `with_suffix` replaces an existing suffix instead of appending
after it. -/
theorem with_suffix_replaces (stem sfx : List Char) (e : String)
    (hs : stem ≠ []) (hx : sfx ≠ []) (h : '.' ∉ sfx) :
    with_suffix (stem ++ '.' :: sfx) (some e) = .ok (stem ++ e.data) := by
  unfold with_suffix
  rw [path_suffix_append stem sfx hs hx h]
  have hl : (stem ++ '.' :: sfx).length - ('.' :: sfx).length = stem.length := by
    rw [List.length_append]; omega
  rw [hl]
  have ht : (stem ++ '.' :: sfx).take stem.length = stem := List.take_left stem ('.' :: sfx)
  rw [ht]

/-- C10: whenever the `guess_extension` table has no entry for the declared
content type's MIME part (before any `;`), `save_content` raises `TypeError`
and performs no write; and when the table does map it to an extension, that
extension replaces any existing dot-suffix of the derived name rather than
being appended after it. -/
theorem save_content_unknown_mime_and_suffix
    (table : String → Option String) (content : List Nat) (u : UrlParts)
    (contentType pre : String) :
    (table (mime_of contentType) = none →
      save_content table content u contentType pre = .error .typeError) ∧
    (∀ stem sfx ext, table (mime_of contentType) = some ext →
      (file_name_base pre u).data = stem ++ '.' :: sfx →
      stem ≠ [] → sfx ≠ [] → '.' ∉ sfx →
      save_content table content u contentType pre = .ok ⟨⟨stem ++ ext.data⟩, content⟩) := by
  constructor
  · intro hnone
    unfold save_content
    rw [hnone]
    rfl
  · intro stem sfx ext hext hname hs hx h
    unfold save_content
    rw [hext, hname, with_suffix_replaces stem sfx ext hs hx h]

/-- The `guess_extension` table fragment used by the C10 witness: `text/html`
maps to `.html` and everything else is unknown. -/
def tableW : String → Option String :=
  fun m => if m = "text/html" then some ".html" else none

/-- The URL used by the C10 witness: its path already carries a `.pdf` suffix. -/
def pdfUrl : UrlParts := ⟨"example.com", "/file.pdf"⟩

/-- C10 witness: an unknown MIME type (`application/x-unknown`) makes
`save_content` fail with `TypeError` before writing, and for `text/html` the
mapped `.html` extension replaces the `.pdf` suffix of the sanitized name. -/
theorem save_content_unknown_mime_and_suffix_witness :
    (tableW (mime_of "application/x-unknown") = none ∧
      save_content tableW [7] pdfUrl "application/x-unknown" "comm" = .error .typeError) ∧
    (tableW (mime_of "text/html; charset=utf-8") = some ".html" ∧
      (file_name_base "comm" pdfUrl).data = "comm_example_com__file".data ++ '.' :: "pdf".data ∧
      save_content tableW [7] pdfUrl "text/html; charset=utf-8" "comm" =
        .ok ⟨⟨"comm_example_com__file".data ++ ".html".data⟩, [7]⟩) :=
  ⟨⟨by decide,
    (save_content_unknown_mime_and_suffix tableW [7] pdfUrl "application/x-unknown" "comm").1
      (by decide)⟩,
   ⟨by decide, by decide,
    (save_content_unknown_mime_and_suffix tableW [7] pdfUrl "text/html; charset=utf-8" "comm").2
      "comm_example_com__file".data "pdf".data ".html"
      (by decide) (by decide) (by decide) (by decide) (by decide)⟩⟩

/-! ### Theorems about the session fold (C2) and the scheduler iteration (C1) -/

/-- C2: with one pipeline returning the id `"100"` and one pipeline failing
with a captured `TimeoutError`, line 192's `map(str, ...)` turns the exception
into the string `"TimeoutError()"`, so line 197's `type(elm) == str` filter
keeps it, and line 198 merges it into the visited set: a value derived from a
captured pipeline failure is added, refuting the claim that exactly the
successful story ids are merged. -/
theorem visited_gains_stringified_failure :
    news_session_processed [PyVal.str "100", PyVal.exn "TimeoutError()"] =
      [PyVal.str "100", PyVal.str "TimeoutError()"] ∧
    update_visited ["1"]
        (news_session_processed [PyVal.str "100", PyVal.exn "TimeoutError()"]) =
      ["1", "100", "TimeoutError()"] := by
  constructor
  · rfl
  · rfl

/-- C1 counterexample: a timed-out index fetch makes the iteration evaluate to
`.error`, i.e. the exception propagates out of `async_main` (ending the
process) instead of reaching the sleep step with the visited set unchanged
(`.ok []`), as the claim requires. -/
theorem session_iteration_fetch_failure_fatal :
    session_iteration (.error .timeout) (fun _ _ => []) (fun r => .str r.id) [] 4 =
      .error .timeout ∧
    session_iteration (.error .timeout) (fun _ _ => []) (fun r => .str r.id) [] 4 ≠
      .ok [] := by
  refine ⟨rfl, ?_⟩
  intro h
  exact Except.noConfusion h

/-- C1 amended: when the index-page fetch fails, no stories are processed that
iteration and the exception propagates out of the scheduler loop — the process
terminates (after top-level logging) instead of sleeping and retrying. -/
theorem session_iteration_fetch_failure_propagates
    (e : FetchError) (rows_of : List Nat → String → List Row)
    (run : Row → PyVal) (visited : List String) (top : Nat) :
    session_iteration (.error e) rows_of run visited top = .error e := rfl

/-! ### Theorem about the per-host cap (C8) -/

/-- The command line used by the C8 theorem: only `--limitperhost 5` given. -/
def cliW : CliArgs :=
  { loglevel := none, logfile := none, restart := none, top := none,
    chunks := none, timeout := none, limitperhost := some 5, output := none }

/-- C8: configuring `--limitperhost 5` puts `5` into the parsed arguments, yet
the connection pool built on line 172 enforces the module constant
`REQUEST_LIMIT_PER_HOST = 8`: the configured per-host cap is ignored. -/
theorem tcp_limit_per_host_ignores_config :
    (parse_input_args cliW).limitperhost = 5 ∧
    tcp_connector_limit_per_host (parse_input_args cliW) = REQUEST_LIMIT_PER_HOST ∧
    tcp_connector_limit_per_host (parse_input_args cliW) ≠
      (parse_input_args cliW).limitperhost := by
  refine ⟨rfl, rfl, ?_⟩
  decide

/-! ### Theorems about the story pipeline (C3, C5, C9) -/

/-- Helper: a pipeline run's fetch trace is either the lone own-page fetch
(the run died at or before the own save), or the own-page fetch followed by
the discussion fetch followed by zero or more comment fetches. -/
theorem process_news_trace_shape (env : PipelineEnv) (newsId href : String) :
    (process_news env newsId href).1 = [⟨FetchKind.own, env.resolve href⟩] ∨
    ∃ urls : List String, (process_news env newsId href).1 =
      ⟨FetchKind.own, env.resolve href⟩ ::
        ⟨FetchKind.discussion, COMMENTS_PAGE_TEMPLATE newsId⟩ ::
          urls.map (fun u => (⟨FetchKind.comment, u⟩ : FetchEvent)) := by
  rcases h1 : env.fetch (env.resolve href) with e | ⟨content, contentType⟩
  · left; simp [process_news, h1]
  · rcases h2 : env.persist content (env.resolve href) contentType "news" with e | f
    · left; simp [process_news, h1, h2]
    · rcases h3 : env.fetch (COMMENTS_PAGE_TEMPLATE newsId) with e | ⟨cc, cct⟩
      · right
        exact ⟨[], by simp [process_news, h1, h2, h3]⟩
      · right
        exact ⟨comment_tasks_loop env.resolve (env.extract cc cct) [],
          by simp [process_news, h1, h2, h3]⟩

/-- Helper: indexing into a singleton list. -/
theorem get?_singleton_eq (a : FetchEvent) (i : Nat) (ev : FetchEvent)
    (h : [a].get? i = some ev) : i = 0 ∧ ev = a := by
  match i with
  | 0 => exact ⟨rfl, (Option.some.inj h).symm⟩
  | n + 1 => simp [List.get?] at h

/-- Helper: every element of the mapped comment-fetch list is a comment fetch. -/
theorem get?_map_comment_kind (urls : List String) (n : Nat) (ev : FetchEvent)
    (h : (urls.map (fun u => (⟨FetchKind.comment, u⟩ : FetchEvent))).get? n = some ev) :
    ev.kind = FetchKind.comment := by
  induction urls generalizing n with
  | nil => simp [List.get?] at h
  | cons u us ih =>
    match n with
    | 0 =>
      rw [← Option.some.inj h]
    | m + 1 => exact ih m h

/-- Helper: indexing into an own/discussion/comments-shaped trace. -/
theorem get?_shape (a b : FetchEvent) (urls : List String) (i : Nat) (ev : FetchEvent)
    (h : (a :: b :: urls.map (fun u => (⟨FetchKind.comment, u⟩ : FetchEvent))).get? i =
      some ev) :
    (i = 0 ∧ ev = a) ∨ (i = 1 ∧ ev = b) ∨ (2 ≤ i ∧ ev.kind = FetchKind.comment) := by
  match i with
  | 0 => exact Or.inl ⟨rfl, (Option.some.inj h).symm⟩
  | 1 => exact Or.inr (Or.inl ⟨rfl, (Option.some.inj h).symm⟩)
  | n + 2 =>
    refine Or.inr (Or.inr ⟨by omega, ?_⟩)
    exact get?_map_comment_kind urls n ev h

/-- Helper: an own-page fetch only ever occurs at trace position 0. -/
theorem trace_own_index (env : PipelineEnv) (newsId href : String) (i : Nat) (u : String)
    (h : (process_news env newsId href).1.get? i = some ⟨FetchKind.own, u⟩) : i = 0 := by
  rcases process_news_trace_shape env newsId href with hs | ⟨urls, hs⟩
  · rw [hs] at h
    exact (get?_singleton_eq _ _ _ h).1
  · rw [hs] at h
    rcases get?_shape _ _ _ _ _ h with ⟨h0, _⟩ | ⟨_, hev⟩ | ⟨_, hev⟩
    · exact h0
    · injection hev with hk _
      exact FetchKind.noConfusion hk
    · exact FetchKind.noConfusion hev

/-- Helper: a discussion-page fetch only ever occurs at trace position 1. -/
theorem trace_discussion_index (env : PipelineEnv) (newsId href : String) (i : Nat)
    (v : String)
    (h : (process_news env newsId href).1.get? i = some ⟨FetchKind.discussion, v⟩) :
    i = 1 := by
  rcases process_news_trace_shape env newsId href with hs | ⟨urls, hs⟩
  · rw [hs] at h
    obtain ⟨_, hev⟩ := get?_singleton_eq _ _ _ h
    injection hev with hk _
    exact FetchKind.noConfusion hk
  · rw [hs] at h
    rcases get?_shape _ _ _ _ _ h with ⟨_, hev⟩ | ⟨h1, _⟩ | ⟨_, hev⟩
    · injection hev with hk _
      exact FetchKind.noConfusion hk
    · exact h1
    · exact FetchKind.noConfusion hev

/-- Helper: a comment fetch occurs only from trace position 2 on, and its
presence means the discussion fetch sits at position 1. -/
theorem trace_comment_facts (env : PipelineEnv) (newsId href : String) (j : Nat)
    (w : String)
    (h : (process_news env newsId href).1.get? j = some ⟨FetchKind.comment, w⟩) :
    2 ≤ j ∧ (process_news env newsId href).1.get? 1 =
      some ⟨FetchKind.discussion, COMMENTS_PAGE_TEMPLATE newsId⟩ := by
  rcases process_news_trace_shape env newsId href with hs | ⟨urls, hs⟩
  · rw [hs] at h
    obtain ⟨_, hev⟩ := get?_singleton_eq _ _ _ h
    injection hev with hk _
    exact FetchKind.noConfusion hk
  · rw [hs] at h
    rcases get?_shape _ _ _ _ _ h with ⟨_, hev⟩ | ⟨_, hev⟩ | ⟨h2, _⟩
    · injection hev with hk _
      exact FetchKind.noConfusion hk
    · injection hev with hk _
      exact FetchKind.noConfusion hk
    · refine ⟨h2, ?_⟩
      rw [hs]
      rfl

/-- C9: in every pipeline run, the own-page fetch strictly precedes the
discussion-page fetch, both strictly precede every comment-link fetch, and a
comment fetch never occurs without the discussion fetch at an earlier
position. -/
theorem process_news_fetch_ordering (env : PipelineEnv) (newsId href : String) :
    (∀ i j u v, (process_news env newsId href).1.get? i = some ⟨FetchKind.own, u⟩ →
      (process_news env newsId href).1.get? j = some ⟨FetchKind.discussion, v⟩ →
      i < j) ∧
    (∀ i j u v, (process_news env newsId href).1.get? i = some ⟨FetchKind.own, u⟩ →
      (process_news env newsId href).1.get? j = some ⟨FetchKind.comment, v⟩ →
      i < j) ∧
    (∀ i j u v, (process_news env newsId href).1.get? i = some ⟨FetchKind.discussion, u⟩ →
      (process_news env newsId href).1.get? j = some ⟨FetchKind.comment, v⟩ →
      i < j) ∧
    (∀ j v, (process_news env newsId href).1.get? j = some ⟨FetchKind.comment, v⟩ →
      ∃ i u, i < j ∧
        (process_news env newsId href).1.get? i = some ⟨FetchKind.discussion, u⟩) := by
  refine ⟨?_, ?_, ?_, ?_⟩
  · intro i j u v hi hj
    have h1 := trace_own_index env newsId href i u hi
    have h2 := trace_discussion_index env newsId href j v hj
    omega
  · intro i j u v hi hj
    have h1 := trace_own_index env newsId href i u hi
    have h2 := (trace_comment_facts env newsId href j v hj).1
    omega
  · intro i j u v hi hj
    have h1 := trace_discussion_index env newsId href i u hi
    have h2 := (trace_comment_facts env newsId href j v hj).1
    omega
  · intro j v hj
    obtain ⟨h2, hdisc⟩ := trace_comment_facts env newsId href j v hj
    exact ⟨1, COMMENTS_PAGE_TEMPLATE newsId, by omega, hdisc⟩

/-- The pipeline environment used by the C3 and C9 concrete runs: every fetch
and persist succeeds, and the discussion page carries two distinct external
links plus one exact duplicate of the first. -/
def envDup : PipelineEnv :=
  { fetch := fun _ => .ok ([], "text/html"),
    persist := fun _ _ _ _ => .ok "saved",
    extract := fun _ _ =>
      ["https://a.example/x", "https://b.example/y", "https://a.example/x"],
    resolve := fun h => h }

/-- C3: with 2 distinct external links and 1 exact duplicate on the discussion
page, the pipeline launches 3 comment fetches, not 2 — the duplicate url is
fetched twice because nothing is ever inserted into `visited_comments_url`. -/
theorem duplicate_comment_link_fetched_twice :
    ((process_news envDup "7" "https://s.example/").1.filter
        (fun ev => ev.kind == FetchKind.comment)).length = 3 ∧
    ((process_news envDup "7" "https://s.example/").1.filter
        (fun ev => ev.kind == FetchKind.comment)).count
      ⟨FetchKind.comment, "https://a.example/x"⟩ = 2 := by
  constructor
  · rfl
  · rfl

/-- C9 witness: a concrete run whose trace has the own fetch at 0, the
discussion fetch at 1 and a comment fetch at 2, with the strict orderings
obtained from the ordering theorem. -/
theorem process_news_fetch_ordering_witness :
    (process_news envDup "7" "https://s.example/").1.get? 0 =
      some ⟨FetchKind.own, "https://s.example/"⟩ ∧
    (process_news envDup "7" "https://s.example/").1.get? 1 =
      some ⟨FetchKind.discussion, COMMENTS_PAGE_TEMPLATE "7"⟩ ∧
    (process_news envDup "7" "https://s.example/").1.get? 2 =
      some ⟨FetchKind.comment, "https://a.example/x"⟩ ∧
    (0 : Nat) < 1 ∧ (1 : Nat) < 2 :=
  ⟨rfl, rfl, rfl,
   (process_news_fetch_ordering envDup "7" "https://s.example/").1 0 1
     "https://s.example/" (COMMENTS_PAGE_TEMPLATE "7") rfl rfl,
   (process_news_fetch_ordering envDup "7" "https://s.example/").2.2.1 1 2
     (COMMENTS_PAGE_TEMPLATE "7") "https://a.example/x" rfl rfl⟩

/-- C5: once the own page is fetched and saved and the discussion page is
fetched (the comment fan-out is then attempted), the pipeline returns the news
id — whatever the environment answers for the comment-link fetches and
persists, including every one of them failing. -/
theorem process_news_isolates_comment_failures
    (env : PipelineEnv) (newsId href : String)
    (content ccontent : List Nat) (contentType cct fileName : String)
    (h1 : env.fetch (env.resolve href) = .ok (content, contentType))
    (h2 : env.persist content (env.resolve href) contentType "news" = .ok fileName)
    (h3 : env.fetch (COMMENTS_PAGE_TEMPLATE newsId) = .ok (ccontent, cct)) :
    (process_news env newsId href).2 = .ok newsId := by
  simp [process_news, h1, h2, h3]

/-- The environment used by the C5 witness: the own page and discussion page
load, yet the single discovered comment link times out and even its persist
path would fail. -/
def envFail : PipelineEnv :=
  { fetch := fun u =>
      if u = "https://news.ycombinator.com/item?id=42" then .ok ([1], "text/html")
      else if u = "https://story.example/" then .ok ([2], "text/html")
      else .error (.fetchErr .timeout),
    persist := fun _ _ _ pre =>
      if pre = "news" then .ok "saved" else .error (.saveErr .typeError),
    extract := fun _ _ => ["https://dead.example/x"],
    resolve := fun h => h }

/-- C5 witness: in `envFail` the own fetch, own save and discussion fetch
succeed, the launched comment fetch fails, and the pipeline still returns the
story id `"42"`. -/
theorem process_news_isolates_comment_failures_witness :
    envFail.fetch (envFail.resolve "https://story.example/") = .ok ([2], "text/html") ∧
    envFail.persist [2] (envFail.resolve "https://story.example/") "text/html" "news" =
      .ok "saved" ∧
    envFail.fetch (COMMENTS_PAGE_TEMPLATE "42") = .ok ([1], "text/html") ∧
    process_comment envFail "https://dead.example/x" = .error (.fetchErr .timeout) ∧
    (process_news envFail "42" "https://story.example/").2 = .ok "42" :=
  ⟨rfl, rfl, rfl, rfl,
   process_news_isolates_comment_failures envFail "42" "https://story.example/"
     [2] [1] "text/html" "text/html" "saved" rfl rfl rfl⟩

end Ycrawler
